import Mathlib

/-!
Shallow embedding of the check-in / gift-redemption plugin (`src/main.py`).

Python dicts keyed by strings are modelled as association lists that keep
insertion order (assignment replaces in place, new keys append), which is
exactly the semantics of Python's `dict`.  Python `int` is modelled as `Int`
(arbitrary precision, no overflow).  Calendar dates are modelled abstractly
by two integer coordinates: `dayIndex` (days since some epoch, so that the
Python expression `(today - last).days` is `today.dayIndex - last.dayIndex`)
and `monthIndex` (months since the epoch, so that the ISO-prefix comparison
`last_date[:7] != today[:7]` is `last.monthIndex ≠ today.monthIndex`).
-/

namespace CheckinGift

/-- A calendar date, reduced to the two coordinates the source ever uses. -/
structure Date where
  dayIndex : Int
  monthIndex : Int
deriving DecidableEq, Repr

/-- A user record (`ctx["users"][user_id]` in the source).  Missing dict keys
are read in the source through `.get` with defaults `0` / `None` / `{}`, so
modelling every record with all fields present (defaulted) is faithful. -/
structure UserAccount where
  username : String
  points : Int
  total_days : Int
  continuous_days : Int
  month_days : Int
  last_checkin : Option Date
  purchases : List (String × Int)
deriving DecidableEq, Repr

/-- A gift record (`ctx["gifts"][gift_id]` in the source). -/
structure Gift where
  name : String
  points_required : Int
  quantity : Int
  per_user_limit : Int
  type : String
  codes : List String
  description : String
deriving DecidableEq, Repr

/-- One context: the structure guaranteed by `_ensure_ctx`. -/
structure Ctx where
  users : List (String × UserAccount)
  gifts : List (String × Gift)
  points_per_checkin : Int
  admins : List String
deriving DecidableEq, Repr

/-- Dict lookup: first (and only) binding of a key, `d.get(k)`. -/
def lookupKey {α : Type} (l : List (String × α)) (k : String) : Option α :=
  match l with
  | [] => none
  | (k0, v0) :: t => if k0 = k then some v0 else lookupKey t k

/-- `d.get(k, default)` for integer-valued dicts. -/
def lookupD (l : List (String × Int)) (k : String) (d : Int) : Int :=
  match lookupKey l k with
  | some v => v
  | none => d

/-- Dict assignment `d[k] = v`: replaces in place, or appends a new binding. -/
def setKey {α : Type} (l : List (String × α)) (k : String) (v : α) :
    List (String × α) :=
  match l with
  | [] => [(k, v)]
  | (k0, v0) :: t => if k0 = k then (k, v) :: t else (k0, v0) :: setKey t k v

/-- `d.setdefault(k, dflt)`: returns the (possibly extended) dict and the
binding now present at `k`. -/
def setdefaultUser (users : List (String × UserAccount)) (uid : String)
    (dflt : UserAccount) : List (String × UserAccount) × UserAccount :=
  match lookupKey users uid with
  | some u => (users, u)
  | none => (users ++ [(uid, dflt)], dflt)

/-- The fresh user record built by `check_in`'s `users.setdefault` call.
(`redeem_gift` and `admin_add_points` build a smaller literal, but every
absent key is read back with the same defaults, so the records behave
identically.) -/
def defaultUser (username : String) : UserAccount :=
  { username := username, points := 0, total_days := 0, continuous_days := 0,
    month_days := 0, last_checkin := none, purchases := [] }

/-- Result of the check-in command. -/
inductive CheckinResult
  | alreadyCheckedInToday
  | success (awarded : Int) (streak : Int) (totalPoints : Int)
deriving DecidableEq, Repr

/-- `check_in` (src/main.py lines 217–277), in-memory part: ensure the user
record, refresh the username, reject a duplicate same-day check-in, otherwise
update streak / month counter / points / totals and stamp today. -/
def check_in (ctx : Ctx) (uid uname : String) (today : Date) :
    Ctx × CheckinResult :=
  let p := setdefaultUser ctx.users uid (defaultUser uname)
  let u1 : UserAccount := { p.2 with username := uname }
  let users1 := setKey p.1 uid u1
  if u1.last_checkin = some today then
    ({ ctx with users := users1 }, .alreadyCheckedInToday)
  else
    let u2 : UserAccount :=
      match u1.last_checkin with
      | some last =>
          let c := if today.dayIndex - last.dayIndex = 1
                   then u1.continuous_days + 1 else 1
          let m := if last.monthIndex ≠ today.monthIndex then 0
                   else u1.month_days
          { u1 with continuous_days := c, month_days := m }
      | none => { u1 with continuous_days := 1 }
    let pts := ctx.points_per_checkin
    let u3 : UserAccount :=
      { u2 with points := u2.points + pts,
                total_days := u2.total_days + 1,
                month_days := u2.month_days + 1,
                last_checkin := some today }
    ({ ctx with users := setKey users1 uid u3 },
     .success pts u3.continuous_days u3.points)

/-- The in-memory document plus the persisted file, for the storage claims.
`disk = none` models "no file yet". -/
structure SysState where
  mem : Ctx
  disk : Option Ctx
deriving DecidableEq, Repr

/-- `_save_data` (src/main.py lines 53–61): writes the document atomically;
any exception is caught and logged, nothing is reported to the caller and the
previous file content survives.  `canWrite` says whether the write raises. -/
def saveData (canWrite : Bool) (s : SysState) : SysState :=
  if canWrite then { s with disk := some s.mem } else s

/-- The check-in command including its `self._save()` call: the duplicate
branch returns before saving, the success branch mutates memory and then
saves (swallowing any storage failure). -/
def check_in_full (s : SysState) (uid uname : String) (today : Date)
    (canWrite : Bool) : SysState × CheckinResult :=
  let r := check_in s.mem uid uname today
  match r.2 with
  | .alreadyCheckedInToday => ({ s with mem := r.1 }, r.2)
  | .success _ _ _ => (saveData canWrite { s with mem := r.1 }, r.2)

/-- The five validation failures of `redeem_gift`, in source order. -/
inductive RedeemError
  | giftNotFound
  | insufficientStock
  | overPersonalLimit
  | insufficientPoints
  | insufficientCodes
deriving DecidableEq, Repr

/-- Outcome of a redemption: a validation failure, a code-type success
carrying the issued codes, or a manual-type success. -/
inductive RedeemOutcome
  | err (e : RedeemError)
  | okCode (codes : List String)
  | okManual
deriving DecidableEq, Repr

/-- `redeem_gift` (src/main.py lines 300–391), in-memory engine after the
argument parsing: validation in source order (existence, stock, per-user
limit, points, code pool), then the commit.  The `setdefault` that creates a
missing user record happens after the stock check, exactly as in the source;
`x or 0` on an `int` is the identity and is dropped. -/
def redeem_gift (ctx : Ctx) (uid uname gid : String) (count : Int) :
    Ctx × RedeemOutcome :=
  match lookupKey ctx.gifts gid with
  | none => (ctx, .err .giftNotFound)
  | some gift =>
    if gift.quantity < count then (ctx, .err .insufficientStock)
    else
      let p := setdefaultUser ctx.users uid (defaultUser uname)
      let users1 := p.1
      let user := p.2
      let ctx1 : Ctx := { ctx with users := users1 }
      let bought := lookupD user.purchases gid 0
      if 0 < gift.per_user_limit ∧ gift.per_user_limit < bought + count then
        (ctx1, .err .overPersonalLimit)
      else
        let need := gift.points_required * count
        if user.points < need then (ctx1, .err .insufficientPoints)
        else if gift.type = "code" ∧ (gift.codes.length : Int) < count then
          (ctx1, .err .insufficientCodes)
        else
          let user2 : UserAccount :=
            { user with points := user.points - need,
                        purchases := setKey user.purchases gid (bought + count) }
          let gift2 : Gift := { gift with quantity := gift.quantity - count }
          if gift.type = "code" then
            let gift3 : Gift := { gift2 with codes := gift.codes.drop count.toNat }
            ({ ctx1 with users := setKey users1 uid user2,
                         gifts := setKey ctx.gifts gid gift3 },
             .okCode (gift.codes.take count.toNat))
          else
            ({ ctx1 with users := setKey users1 uid user2,
                         gifts := setKey ctx.gifts gid gift2 },
             .okManual)

/-- `bind_admin` (src/main.py lines 395–409): succeeds only while the
context's admin list is empty, appending the caller. -/
def bind_admin (ctx : Ctx) (uid : String) : Ctx × Bool :=
  if ctx.admins ≠ [] then (ctx, false)
  else ({ ctx with admins := ctx.admins ++ [uid] }, true)

/-- Result of the add-codes command. -/
inductive AddCodesResult
  | notFound
  | wrongType
  | added (n : Nat)
deriving DecidableEq, Repr

/-- `add_codes` (src/main.py lines 692–727), after the comma-splitting of the
argument: extends the gift's code pool and bumps its quantity by the number
of codes added. -/
def add_codes (ctx : Ctx) (gid : String) (new_codes : List String) :
    Ctx × AddCodesResult :=
  match lookupKey ctx.gifts gid with
  | none => (ctx, .notFound)
  | some gift =>
    if gift.type ≠ "code" then (ctx, .wrongType)
    else
      let gift2 : Gift :=
        { gift with codes := gift.codes ++ new_codes,
                    quantity := gift.quantity + (new_codes.length : Int) }
      ({ ctx with gifts := setKey ctx.gifts gid gift2 },
       .added new_codes.length)

/-- `admin_add_points` (src/main.py lines 637–664), after the admin gate and
argument parsing: applies the (possibly negative) delta unconditionally. -/
def admin_add_points (ctx : Ctx) (target : String) (delta : Int) : Ctx :=
  let p := setdefaultUser ctx.users target ({ defaultUser target with username := target })
  let u2 : UserAccount := { p.2 with points := p.2.points + delta }
  { ctx with users := setKey p.1 target u2 }

/-- The `count` argument of the redeem command as it reaches the parser:
absent, present but not an integer literal, or an integer. -/
inductive CountArg
  | missing
  | unparsable
  | val (n : Int)
deriving DecidableEq, Repr

/-- Normalisation of `count` in `redeem_gift` (src/main.py lines 317–322):
`count = 1`, then `count = max(1, int(args[1]))` with any parse failure
falling back to `1`. -/
def parse_count (a : CountArg) : Int :=
  match a with
  | .missing => 1
  | .unparsable => 1
  | .val n => max 1 n

/-- The redeem command as dispatched: parse the count, then run the engine. -/
def redeem_command (ctx : Ctx) (uid uname gid : String) (carg : CountArg) :
    Ctx × RedeemOutcome :=
  redeem_gift ctx uid uname gid (parse_count carg)

/-- The global invariant claimed by the spec: every user's balance is
nonnegative. -/
def allPointsNonneg (ctx : Ctx) : Prop :=
  ∀ p ∈ ctx.users, 0 ≤ p.2.points

/-- A gift for the validation-order scenario: costs 50, plenty of stock,
per-user limit 1, code-backed with spare codes. -/
def gC1 : Gift :=
  { name := "G1", points_required := 50, quantity := 5, per_user_limit := 1,
    type := "code", codes := ["A1", "A2", "A3", "A4", "A5"], description := "" }

/-- A user who has no points at all and has already bought one unit of
`gC1`, so a further redemption violates both the points check and the
per-user limit. -/
def uC1 : UserAccount :=
  { defaultUser "U1" with points := 0, purchases := [("G1", 1)] }

/-- Context for the validation-order counterexample. -/
def ctxC1 : Ctx :=
  { users := [("U1", uC1)], gifts := [("G1", gC1)],
    points_per_checkin := 10, admins := [] }

/-- Context for the negative-points counterexample: no users yet. -/
def ctxC2 : Ctx :=
  { users := [], gifts := [], points_per_checkin := 10, admins := [] }

/-- A user who already checked in on day 100 of month 3 under the display
name "old". -/
def uC4 : UserAccount :=
  { username := "old", points := 42, total_days := 7, continuous_days := 3,
    month_days := 5, last_checkin := some ⟨100, 3⟩, purchases := [] }

/-- Context for the duplicate-check-in counterexample. -/
def ctxC4 : Ctx :=
  { users := [("u", uC4)], gifts := [], points_per_checkin := 10, admins := [] }

/-- The spec's §8 concrete gift: cost 50, stock 2, per-user limit 1,
code-backed with pool ["A1", "A2"]. -/
def gC6 : Gift :=
  { name := "G1", points_required := 50, quantity := 2, per_user_limit := 1,
    type := "code", codes := ["A1", "A2"], description := "" }

/-- The spec's §8 concrete user: 100 points, nothing bought yet. -/
def uC6 : UserAccount := { defaultUser "U1" with points := 100 }

/-- Context for the spec's §8 redemption scenario. -/
def ctxC6 : Ctx :=
  { users := [("U1", uC6)], gifts := [("G1", gC6)],
    points_per_checkin := 10, admins := [] }

/-- The concrete system state used to refute C9: one user, config 10 points
per check-in, disk in sync with memory. -/
def ctxC9 : Ctx :=
  { users := [("u", defaultUser "u")], gifts := [],
    points_per_checkin := 10, admins := [] }

/-- Pre-state for the C9 counterexample. -/
def sysC9 : SysState := { mem := ctxC9, disk := some ctxC9 }

/-! Helper lemmas about the association-list dictionary operations. -/

theorem lookupKey_setKey_self {α : Type} (l : List (String × α)) (k : String)
    (v : α) : lookupKey (setKey l k v) k = some v := by
  induction l with
  | nil => simp [setKey, lookupKey]
  | cons hd t ih =>
    obtain ⟨k0, v0⟩ := hd
    by_cases hk : k0 = k
    · simp [setKey, hk, lookupKey]
    · simp [setKey, hk, lookupKey, ih]

theorem lookupKey_setKey_ne {α : Type} (l : List (String × α)) (k k2 : String)
    (v : α) (hne : k2 ≠ k) :
    lookupKey (setKey l k v) k2 = lookupKey l k2 := by
  have hne2 : ¬ k = k2 := fun h => hne h.symm
  induction l with
  | nil => simp [setKey, lookupKey, hne2]
  | cons hd t ih =>
    obtain ⟨k0, v0⟩ := hd
    by_cases hk : k0 = k
    · subst hk
      simp [setKey, lookupKey, hne2]
    · simp [setKey, hk, lookupKey, ih]

theorem lookupKey_append_some {α : Type} (l t : List (String × α)) (k : String)
    (a : α) (h : lookupKey l k = some a) : lookupKey (l ++ t) k = some a := by
  induction l with
  | nil => simp [lookupKey] at h
  | cons hd tl ih =>
    obtain ⟨k0, v0⟩ := hd
    by_cases hk : k0 = k
    · simp [lookupKey, hk] at h ⊢
      exact h
    · simp [lookupKey, hk] at h ⊢
      exact ih h

theorem lookupKey_mem {α : Type} (l : List (String × α)) (k : String) (a : α)
    (h : lookupKey l k = some a) : (k, a) ∈ l := by
  induction l with
  | nil => simp [lookupKey] at h
  | cons hd tl ih =>
    obtain ⟨k0, v0⟩ := hd
    by_cases hk : k0 = k
    · subst hk
      simp [lookupKey] at h
      simp [h]
    · simp [lookupKey, hk] at h
      exact List.mem_cons_of_mem _ (ih h)

theorem mem_setKey {α : Type} (l : List (String × α)) (k : String) (v : α)
    (p : String × α) (h : p ∈ setKey l k v) : p = (k, v) ∨ p ∈ l := by
  induction l with
  | nil =>
    simp [setKey] at h
    exact Or.inl h
  | cons hd t ih =>
    obtain ⟨k0, v0⟩ := hd
    by_cases hk : k0 = k
    · simp [setKey, hk] at h
      rcases h with h | h
      · exact Or.inl h
      · exact Or.inr (List.mem_cons_of_mem _ h)
    · simp [setKey, hk] at h
      rcases h with h | h
      · exact Or.inr (by simp [h])
      · rcases ih h with h2 | h2
        · exact Or.inl h2
        · exact Or.inr (List.mem_cons_of_mem _ h2)

theorem setdefaultUser_some (users : List (String × UserAccount)) (uid : String)
    (dflt u : UserAccount) (h : lookupKey users uid = some u) :
    setdefaultUser users uid dflt = (users, u) := by
  simp [setdefaultUser, h]

theorem setdefaultUser_none (users : List (String × UserAccount)) (uid : String)
    (dflt : UserAccount) (h : lookupKey users uid = none) :
    setdefaultUser users uid dflt = (users ++ [(uid, dflt)], dflt) := by
  simp [setdefaultUser, h]

theorem allNonneg_setKey (users : List (String × UserAccount)) (k : String)
    (v : UserAccount) (h : ∀ p ∈ users, 0 ≤ p.2.points) (hv : 0 ≤ v.points) :
    ∀ p ∈ setKey users k v, 0 ≤ p.2.points := by
  intro p hp
  rcases mem_setKey users k v p hp with h2 | h2
  · subst h2
    exact hv
  · exact h p h2

theorem allNonneg_append (users : List (String × UserAccount)) (k : String)
    (v : UserAccount) (h : ∀ p ∈ users, 0 ≤ p.2.points) (hv : 0 ≤ v.points) :
    ∀ p ∈ users ++ [(k, v)], 0 ≤ p.2.points := by
  intro p hp
  rcases List.mem_append.mp hp with h2 | h2
  · exact h p h2
  · simp at h2
    subst h2
    exact hv

/-! Claim theorems. -/

/-- C10: at the public redeem command, the count argument is normalized to at
least 1 before validation — a missing, non-integer, zero, or negative count is
treated as 1 (`max 1` clamps every parsed integer) — so the redemption engine
is only ever invoked with a count ≥ 1. -/
theorem redeem_count_normalized (ctx : Ctx) (uid uname gid : String)
    (carg : CountArg) :
    1 ≤ parse_count carg ∧
    parse_count .missing = 1 ∧
    parse_count .unparsable = 1 ∧
    parse_count (.val 0) = 1 ∧
    parse_count (.val (-3)) = 1 ∧
    redeem_command ctx uid uname gid carg =
      redeem_gift ctx uid uname gid (parse_count carg) := by
  refine ⟨?_, rfl, rfl, rfl, rfl, rfl⟩
  cases carg with
  | missing => simp [parse_count]
  | unparsable => simp [parse_count]
  | val n => exact le_max_left 1 n

/-- C7: bind-first-admin succeeds exactly when the context's admin set is
empty, making the caller the sole admin; once any admin exists the call fails
and leaves the context (in particular its admin set) unchanged. -/
theorem bind_admin_first_only (ctx : Ctx) (uid : String) :
    ((bind_admin ctx uid).2 = true ↔ ctx.admins = []) ∧
    (ctx.admins = [] → (bind_admin ctx uid).1.admins = [uid] ∧
       (bind_admin ctx uid).1.users = ctx.users ∧
       (bind_admin ctx uid).1.gifts = ctx.gifts) ∧
    (ctx.admins ≠ [] → (bind_admin ctx uid).1 = ctx ∧
       (bind_admin ctx uid).2 = false) := by
  by_cases h : ctx.admins = []
  · simp [bind_admin, h]
  · simp [bind_admin, h]

/-- Witness for C7 at a concrete context with an empty admin set. -/
theorem bind_admin_first_only_witness :
    (bind_admin { users := [], gifts := [], points_per_checkin := 10,
                  admins := [] } "alice").2 = true ∧
    (bind_admin { users := [], gifts := [], points_per_checkin := 10,
                  admins := [] } "alice").1.admins = ["alice"] := by
  have h := bind_admin_first_only
    { users := [], gifts := [], points_per_checkin := 10, admins := [] } "alice"
  exact ⟨h.1.mpr rfl, (h.2.1 rfl).1⟩

/-- C9 counterexample: when the save raises, the check-in command still
reports success, the in-memory mutation is kept (not reverted), and the disk
keeps the stale pre-state — memory and disk diverge. -/
theorem save_failure_not_surfaced_cex :
    (check_in_full sysC9 "u" "u" ⟨100, 3⟩ false).2 = .success 10 1 10 ∧
    (check_in_full sysC9 "u" "u" ⟨100, 3⟩ false).1.mem ≠ sysC9.mem ∧
    (check_in_full sysC9 "u" "u" ⟨100, 3⟩ false).1.disk = sysC9.disk ∧
    (check_in_full sysC9 "u" "u" ⟨100, 3⟩ false).1.disk ≠
      some (check_in_full sysC9 "u" "u" ⟨100, 3⟩ false).1.mem := by
  decide

/-- C9 amended: a failed save is invisible to the caller — the command result
and the in-memory document are exactly what they would be on a successful
save (so the mutation is kept, no failure is surfaced, and no rollback
happens); only the disk is left at its previous content. -/
theorem save_failure_invisible (s : SysState) (uid uname : String)
    (today : Date) :
    (check_in_full s uid uname today false).2 =
      (check_in_full s uid uname today true).2 ∧
    (check_in_full s uid uname today false).1.mem =
      (check_in_full s uid uname today true).1.mem ∧
    (check_in_full s uid uname today false).1.disk = s.disk := by
  cases hr : (check_in s.mem uid uname today).2 with
  | alreadyCheckedInToday => simp [check_in_full, hr, saveData]
  | success a b c => simp [check_in_full, hr, saveData]

/-- C2 counterexample: an admin grant with a negative amount is applied
unconditionally, driving a fresh user's balance to -5 < 0; no rejection
happens. -/
theorem admin_grant_negative_cex :
    allPointsNonneg ctxC2 ∧
    ¬ allPointsNonneg (admin_add_points ctxC2 "t" (-5)) ∧
    lookupKey (admin_add_points ctxC2 "t" (-5)).users "t" =
      some ({ defaultUser "t" with points := -5 }) := by
  unfold allPointsNonneg
  decide

/-- C2 amended: check-in (with a nonnegative configured award) and
redemption preserve the nonnegativity of every user's points — redemption
only debits after verifying `points ≥ cost` — but an admin point grant
applies its delta unconditionally, so a negative grant exceeding the balance
makes points negative. -/
theorem checkin_redeem_preserve_nonneg (ctx : Ctx) (uid uname gid : String)
    (today : Date) (count : Int)
    (hinv : allPointsNonneg ctx) (hcfg : 0 ≤ ctx.points_per_checkin) :
    allPointsNonneg (check_in ctx uid uname today).1 ∧
    allPointsNonneg (redeem_gift ctx uid uname gid count).1 := by
  have hbase : ∀ dflt : UserAccount, 0 ≤ dflt.points →
      (∀ p ∈ (setdefaultUser ctx.users uid dflt).1, 0 ≤ p.2.points) ∧
      0 ≤ (setdefaultUser ctx.users uid dflt).2.points := by
    intro dflt hd
    cases hsd : lookupKey ctx.users uid with
    | some u0 =>
      rw [setdefaultUser_some _ _ _ _ hsd]
      exact ⟨hinv, hinv _ (lookupKey_mem _ _ _ hsd)⟩
    | none =>
      rw [setdefaultUser_none _ _ _ hsd]
      exact ⟨allNonneg_append _ _ _ hinv hd, hd⟩
  obtain ⟨h1, h2⟩ := hbase (defaultUser uname) (by simp [defaultUser])
  constructor
  · cases hlast : (setdefaultUser ctx.users uid (defaultUser uname)).2.last_checkin with
    | none =>
      simp only [check_in, allPointsNonneg, hlast]
      apply allNonneg_setKey _ _ _ (allNonneg_setKey _ _ _ h1 (by simpa using h2))
      simp only []
      omega
    | some last =>
      by_cases hlt : last = today
      · subst hlt
        simp only [check_in, allPointsNonneg, hlast, if_pos rfl]
        exact allNonneg_setKey _ _ _ h1 (by simpa using h2)
      · have hcond : ¬ (some last = some today) := by simp [hlt]
        simp only [check_in, allPointsNonneg, hlast, if_neg hcond]
        apply allNonneg_setKey _ _ _ (allNonneg_setKey _ _ _ h1 (by simpa using h2))
        simp only []
        omega
  · cases hg : lookupKey ctx.gifts gid with
    | none =>
      simp only [redeem_gift, allPointsNonneg, hg]
      exact hinv
    | some g =>
      simp only [redeem_gift, allPointsNonneg, hg]
      split
      · exact hinv
      · split
        · exact h1
        · split
          next hpts => exact h1
          next hpts =>
            split
            · exact h1
            · split
              · exact allNonneg_setKey _ _ _ h1 (by simp only []; omega)
              · exact allNonneg_setKey _ _ _ h1 (by simp only []; omega)

/-- Witness for the amended C2 at a concrete context. -/
theorem checkin_redeem_preserve_nonneg_witness :
    allPointsNonneg (check_in ctxC2 "u" "u" ⟨1, 1⟩).1 ∧
    allPointsNonneg (redeem_gift ctxC2 "u" "u" "g" 1).1 := by
  exact checkin_redeem_preserve_nonneg ctxC2 "u" "u" "g" ⟨1, 1⟩ 1
    (by unfold allPointsNonneg; decide) (by decide)

/-- C1 counterexample: a user who both lacks sufficient points and would
exceed the per-user limit gets `overPersonalLimit`, not
`insufficientPoints` — the source checks the per-user limit before the
points balance. -/
theorem redeem_order_cex :
    lookupKey ctxC1.users "U1" = some uC1 ∧
    lookupKey ctxC1.gifts "G1" = some gC1 ∧
    uC1.points < gC1.points_required * 1 ∧
    0 < gC1.per_user_limit ∧
    gC1.per_user_limit < lookupD uC1.purchases "G1" 0 + 1 ∧
    1 ≤ gC1.quantity ∧
    (redeem_gift ctxC1 "U1" "U1" "G1" 1).2 = .err .overPersonalLimit ∧
    (redeem_gift ctxC1 "U1" "U1" "G1" 1).2 ≠ .err .insufficientPoints := by
  decide

/-- C1 amended: the validation order of `redeem_gift` is (1) gift existence,
(2) stock, (3) per-user limit, (4) points, (5) code pool; whenever the gift
exists, stock suffices and the per-user limit would be exceeded, the failure
is `overPersonalLimit` regardless of the points balance — in particular a
user who both lacks points and exceeds the limit gets `overPersonalLimit`. -/
theorem redeem_limit_before_points (ctx : Ctx) (uid uname gid : String)
    (count : Int) (g : Gift) (u : UserAccount)
    (hg : lookupKey ctx.gifts gid = some g)
    (hq : ¬ g.quantity < count)
    (hu : lookupKey ctx.users uid = some u)
    (hlim : 0 < g.per_user_limit ∧
      g.per_user_limit < lookupD u.purchases gid 0 + count) :
    (redeem_gift ctx uid uname gid count).2 = .err .overPersonalLimit := by
  have hsd := setdefaultUser_some ctx.users uid (defaultUser uname) u hu
  simp [redeem_gift, hg, hq, hsd, hlim]

/-- Witness for the amended C1: the same concrete scenario as the
counterexample, reached through the general theorem. -/
theorem redeem_limit_before_points_witness :
    (redeem_gift ctxC1 "U1" "U1" "G1" 1).2 = .err .overPersonalLimit := by
  exact redeem_limit_before_points ctxC1 "U1" "U1" "G1" 1 gC1 uC1
    (by decide) (by decide) (by decide) (by decide)

/-- C4 counterexample: a rejected same-day second check-in still refreshes
the stored username to the caller's current display name, so the account
state is not entirely unchanged. -/
theorem checkin_dup_username_cex :
    uC4.last_checkin = some ⟨100, 3⟩ ∧
    uC4.username = "old" ∧
    (check_in ctxC4 "u" "new" ⟨100, 3⟩).2 = .alreadyCheckedInToday ∧
    (lookupKey (check_in ctxC4 "u" "new" ⟨100, 3⟩).1.users "u").map
      UserAccount.username = some "new" := by
  decide

/-- C4 amended: a second check-in on the same calendar date is rejected with
`alreadyCheckedInToday` and leaves points, total_days, continuous_days,
month_days, last_checkin and purchases unchanged — but the username field is
refreshed to the caller's current display name before the rejection; other
users, gifts, admins and config are untouched. -/
theorem checkin_same_day_reject (ctx : Ctx) (uid uname : String)
    (today : Date) (u : UserAccount)
    (hu : lookupKey ctx.users uid = some u)
    (hlast : u.last_checkin = some today) :
    (check_in ctx uid uname today).2 = .alreadyCheckedInToday ∧
    lookupKey (check_in ctx uid uname today).1.users uid =
      some ({ u with username := uname }) ∧
    (∀ uid2, uid2 ≠ uid →
      lookupKey (check_in ctx uid uname today).1.users uid2 =
        lookupKey ctx.users uid2) ∧
    (check_in ctx uid uname today).1.gifts = ctx.gifts ∧
    (check_in ctx uid uname today).1.admins = ctx.admins ∧
    (check_in ctx uid uname today).1.points_per_checkin =
      ctx.points_per_checkin := by
  have hsd := setdefaultUser_some ctx.users uid (defaultUser uname) u hu
  simp only [check_in, hsd, hlast, if_pos rfl]
  refine ⟨rfl, lookupKey_setKey_self _ _ _, ?_, rfl, rfl, rfl⟩
  intro uid2 hne
  exact lookupKey_setKey_ne _ _ _ _ hne

/-- Witness for the amended C4 at the concrete duplicate-check-in state. -/
theorem checkin_same_day_reject_witness :
    (check_in ctxC4 "u" "new" ⟨100, 3⟩).2 = .alreadyCheckedInToday ∧
    lookupKey (check_in ctxC4 "u" "new" ⟨100, 3⟩).1.users "u" =
      some ({ uC4 with username := "new" }) := by
  have h := checkin_same_day_reject ctxC4 "u" "new" ⟨100, 3⟩ uC4
    (by decide) (by decide)
  exact ⟨h.1, h.2.1⟩

/-- C5: a successful check-in stores continuous_days = previous + 1 exactly
when the previous check-in was one calendar day before today, and stores 1
otherwise (never checked in before, or any other gap). -/
theorem checkin_streak_update (ctx : Ctx) (uid uname : String) (today : Date)
    (u : UserAccount)
    (hu : (setdefaultUser ctx.users uid (defaultUser uname)).2 = u)
    (hne : u.last_checkin ≠ some today) :
    ∃ u2 : UserAccount,
      lookupKey (check_in ctx uid uname today).1.users uid = some u2 ∧
      (check_in ctx uid uname today).2 =
        .success ctx.points_per_checkin u2.continuous_days u2.points ∧
      u2.continuous_days =
        (match u.last_checkin with
         | some last =>
             if today.dayIndex - last.dayIndex = 1 then u.continuous_days + 1
             else 1
         | none => 1) ∧
      u2.last_checkin = some today := by
  cases hlast : u.last_checkin with
  | none =>
    simp only [check_in, hu, hlast]
    exact ⟨_, lookupKey_setKey_self _ _ _, rfl, rfl, rfl⟩
  | some last =>
    have hcond : ¬ (some last = some today) := by
      rw [← hlast]
      exact hne
    simp only [check_in, hu, hlast, if_neg hcond]
    exact ⟨_, lookupKey_setKey_self _ _ _, rfl, rfl, rfl⟩

/-- Witness for C5: on the concrete duplicate-check-in context, checking in
one day after the stored date yields streak 3 + 1 = 4. -/
theorem checkin_streak_update_witness :
    ∃ u2 : UserAccount,
      lookupKey (check_in ctxC4 "u" "old" ⟨101, 3⟩).1.users "u" = some u2 ∧
      (check_in ctxC4 "u" "old" ⟨101, 3⟩).2 =
        .success ctxC4.points_per_checkin u2.continuous_days u2.points ∧
      u2.continuous_days =
        (match uC4.last_checkin with
         | some last =>
             if (101 : Int) - last.dayIndex = 1 then uC4.continuous_days + 1
             else 1
         | none => 1) ∧
      u2.last_checkin = some ⟨101, 3⟩ := by
  exact checkin_streak_update ctxC4 "u" "old" ⟨101, 3⟩ uC4
    (by decide) (by decide)

/-- C3: a redemption that fails any validation check mutates no field of any
existing user record or any gift: every gift lookup and every pre-existing
user lookup is unchanged, as are the admin list and config.  (The only state
effect a failed call can have is the lazy creation of a fresh, zeroed record
for a previously unknown user id.) -/
theorem redeem_fail_no_mutation (ctx : Ctx) (uid uname gid : String)
    (count : Int) (e : RedeemError)
    (h : (redeem_gift ctx uid uname gid count).2 = .err e) :
    (∀ gid2, lookupKey (redeem_gift ctx uid uname gid count).1.gifts gid2 =
       lookupKey ctx.gifts gid2) ∧
    (∀ uid2 u, lookupKey ctx.users uid2 = some u →
       lookupKey (redeem_gift ctx uid uname gid count).1.users uid2 = some u) ∧
    (redeem_gift ctx uid uname gid count).1.admins = ctx.admins ∧
    (redeem_gift ctx uid uname gid count).1.points_per_checkin =
      ctx.points_per_checkin := by
  have husers : ∀ uid2 u, lookupKey ctx.users uid2 = some u →
      lookupKey (setdefaultUser ctx.users uid (defaultUser uname)).1 uid2 =
        some u := by
    intro uid2 u hu2
    cases hsd : lookupKey ctx.users uid with
    | some u0 =>
      rw [setdefaultUser_some _ _ _ _ hsd]
      exact hu2
    | none =>
      rw [setdefaultUser_none _ _ _ hsd]
      exact lookupKey_append_some _ _ _ _ hu2
  cases hg : lookupKey ctx.gifts gid with
  | none =>
    refine ⟨fun g2 => ?_, fun uid2 u hu2 => ?_, ?_, ?_⟩ <;>
      simp [redeem_gift, hg, *]
  | some g =>
    by_cases h1 : g.quantity < count
    · refine ⟨fun g2 => ?_, fun uid2 u hu2 => ?_, ?_, ?_⟩ <;>
        simp [redeem_gift, hg, h1, *]
    · by_cases h2 : 0 < g.per_user_limit ∧ g.per_user_limit <
          lookupD (setdefaultUser ctx.users uid (defaultUser uname)).2.purchases
            gid 0 + count
      · refine ⟨fun g2 => ?_, fun uid2 u hu2 => ?_, ?_, ?_⟩
        · simp [redeem_gift, hg, h1, h2]
        · simp [redeem_gift, hg, h1, h2, husers _ _ hu2]
        · simp [redeem_gift, hg, h1, h2]
        · simp [redeem_gift, hg, h1, h2]
      · by_cases h3 : (setdefaultUser ctx.users uid (defaultUser uname)).2.points
            < g.points_required * count
        · refine ⟨fun g2 => ?_, fun uid2 u hu2 => ?_, ?_, ?_⟩
          · simp [redeem_gift, hg, h1, h2, h3]
          · simp [redeem_gift, hg, h1, h2, h3, husers _ _ hu2]
          · simp [redeem_gift, hg, h1, h2, h3]
          · simp [redeem_gift, hg, h1, h2, h3]
        · by_cases h4 : g.type = "code" ∧ (g.codes.length : Int) < count
          · refine ⟨fun g2 => ?_, fun uid2 u hu2 => ?_, ?_, ?_⟩
            · simp [redeem_gift, hg, h1, h2, h3, h4]
            · simp [redeem_gift, hg, h1, h2, h3, h4, husers _ _ hu2]
            · simp [redeem_gift, hg, h1, h2, h3, h4]
            · simp [redeem_gift, hg, h1, h2, h3, h4]
          · exfalso
            by_cases h5 : g.type = "code"
            · have hlen : ¬ ((g.codes.length : Int) < count) :=
                fun hl => h4 ⟨h5, hl⟩
              simp [redeem_gift, hg, h1, h2, h3, h4, h5, hlen] at h
            · simp [redeem_gift, hg, h1, h2, h3, h4, h5] at h

/-- Witness for C3: the concrete over-limit failure leaves the concrete
user's and gift's fields untouched. -/
theorem redeem_fail_no_mutation_witness :
    lookupKey (redeem_gift ctxC1 "U1" "U1" "G1" 1).1.gifts "G1" =
      lookupKey ctxC1.gifts "G1" ∧
    lookupKey (redeem_gift ctxC1 "U1" "U1" "G1" 1).1.users "U1" = some uC1 := by
  have h := redeem_fail_no_mutation ctxC1 "U1" "U1" "G1" 1 .overPersonalLimit
    (by decide)
  exact ⟨h.1 "G1", h.2.1 "U1" uC1 (by decide)⟩

/-- C6: a successful redemption of `count` units debits exactly
`points_required * count` points, decrements the stock by `count`,
increments the user's purchase count for this gift by `count`, and for a
code-type gift removes exactly the first `count` codes from the front of the
pool and delivers precisely those codes. -/
theorem redeem_success_commit (ctx : Ctx) (uid uname gid : String)
    (count : Int) (g : Gift) (u : UserAccount)
    (hg : lookupKey ctx.gifts gid = some g)
    (hu : lookupKey ctx.users uid = some u)
    (hq : ¬ g.quantity < count)
    (hlim : ¬ (0 < g.per_user_limit ∧
      g.per_user_limit < lookupD u.purchases gid 0 + count))
    (hp : ¬ u.points < g.points_required * count)
    (hc : g.type = "code" → ¬ (g.codes.length : Int) < count) :
    ∃ u2 g2,
      lookupKey (redeem_gift ctx uid uname gid count).1.users uid = some u2 ∧
      lookupKey (redeem_gift ctx uid uname gid count).1.gifts gid = some g2 ∧
      u2.points = u.points - g.points_required * count ∧
      g2.quantity = g.quantity - count ∧
      lookupD u2.purchases gid 0 = lookupD u.purchases gid 0 + count ∧
      (g.type = "code" →
        g2.codes = g.codes.drop count.toNat ∧
        (redeem_gift ctx uid uname gid count).2 =
          .okCode (g.codes.take count.toNat)) ∧
      (g.type ≠ "code" →
        g2.codes = g.codes ∧
        (redeem_gift ctx uid uname gid count).2 = .okManual) := by
  have hsd := setdefaultUser_some ctx.users uid (defaultUser uname) u hu
  have h4 : ¬ (g.type = "code" ∧ (g.codes.length : Int) < count) := by
    intro hand
    exact hc hand.1 hand.2
  by_cases h5 : g.type = "code"
  · have hlen : ¬ ((g.codes.length : Int) < count) := hc h5
    refine ⟨{ u with points := u.points - g.points_required * count, purchases := setKey u.purchases gid (lookupD u.purchases gid 0 + count) },
            { g with quantity := g.quantity - count, codes := g.codes.drop count.toNat },
            ?_, ?_, ?_, ?_, ?_, ?_, ?_⟩
    · simp [redeem_gift, hg, hq, hsd, hlim, hp, h5, hlen,
        lookupKey_setKey_self]
    · simp [redeem_gift, hg, hq, hsd, hlim, hp, h5, hlen,
        lookupKey_setKey_self]
    · simp
    · simp
    · simp [lookupD, lookupKey_setKey_self]
    · intro h6
      refine ⟨rfl, ?_⟩
      simp [redeem_gift, hg, hq, hsd, hlim, hp, h5, hlen]
    · intro h6
      exact (h6 h5).elim
  · refine ⟨{ u with points := u.points - g.points_required * count, purchases := setKey u.purchases gid (lookupD u.purchases gid 0 + count) },
            { g with quantity := g.quantity - count },
            ?_, ?_, ?_, ?_, ?_, ?_, ?_⟩
    · simp [redeem_gift, hg, hq, hsd, hlim, hp, h4, h5,
        lookupKey_setKey_self]
    · simp [redeem_gift, hg, hq, hsd, hlim, hp, h4, h5,
        lookupKey_setKey_self]
    · simp
    · simp
    · simp [lookupD, lookupKey_setKey_self]
    · intro h6
      exact (h5 h6).elim
    · intro h6
      refine ⟨rfl, ?_⟩
      simp [redeem_gift, hg, hq, hsd, hlim, hp, h4, h5]

/-- Witness for C6: the spec's own concrete scenario — cost 50, stock 2,
limit 1, codes ["A1", "A2"], user with 100 points — redeeming one unit
debits 50, leaves stock 1 and pool ["A2"], and delivers "A1". -/
theorem redeem_success_commit_witness :
    ∃ u2 g2,
      lookupKey (redeem_gift ctxC6 "U1" "U1" "G1" 1).1.users "U1" = some u2 ∧
      lookupKey (redeem_gift ctxC6 "U1" "U1" "G1" 1).1.gifts "G1" = some g2 ∧
      u2.points = uC6.points - gC6.points_required * 1 ∧
      g2.quantity = gC6.quantity - 1 ∧
      lookupD u2.purchases "G1" 0 = lookupD uC6.purchases "G1" 0 + 1 ∧
      (gC6.type = "code" →
        g2.codes = gC6.codes.drop (1 : Int).toNat ∧
        (redeem_gift ctxC6 "U1" "U1" "G1" 1).2 =
          .okCode (gC6.codes.take (1 : Int).toNat)) ∧
      (gC6.type ≠ "code" →
        g2.codes = gC6.codes ∧
        (redeem_gift ctxC6 "U1" "U1" "G1" 1).2 = .okManual) := by
  exact redeem_success_commit ctxC6 "U1" "U1" "G1" 1 gC6 uC6
    (by decide) (by decide) (by decide) (by decide) (by decide) (by decide)

/-- C8: add-codes appends the given codes to the end of the gift's code pool
and increments the gift's quantity by exactly the number of codes added;
with an unknown gift id it fails with notFound and with a non-code gift it
fails with wrongType, in both cases returning the context completely
unchanged. -/
theorem add_codes_spec (ctx : Ctx) (gid : String) (new_codes : List String) :
    (lookupKey ctx.gifts gid = none →
       add_codes ctx gid new_codes = (ctx, .notFound)) ∧
    (∀ g, lookupKey ctx.gifts gid = some g → g.type ≠ "code" →
       add_codes ctx gid new_codes = (ctx, .wrongType)) ∧
    (∀ g, lookupKey ctx.gifts gid = some g → g.type = "code" →
       (add_codes ctx gid new_codes).2 = .added new_codes.length ∧
       lookupKey (add_codes ctx gid new_codes).1.gifts gid =
         some ({ g with codes := g.codes ++ new_codes, quantity := g.quantity + (new_codes.length : Int) }) ∧
       (∀ gid2, gid2 ≠ gid →
          lookupKey (add_codes ctx gid new_codes).1.gifts gid2 =
            lookupKey ctx.gifts gid2) ∧
       (add_codes ctx gid new_codes).1.users = ctx.users ∧
       (add_codes ctx gid new_codes).1.admins = ctx.admins) := by
  refine ⟨?_, ?_, ?_⟩
  · intro h
    simp [add_codes, h]
  · intro g hg ht
    simp [add_codes, hg, ht]
  · intro g hg ht
    refine ⟨?_, ?_, ?_, ?_, ?_⟩
    · simp [add_codes, hg, ht]
    · simp [add_codes, hg, ht, lookupKey_setKey_self]
    · intro gid2 hne
      simp [add_codes, hg, ht, lookupKey_setKey_ne _ _ _ _ hne]
    · simp [add_codes, hg, ht]
    · simp [add_codes, hg, ht]

/-- Witness for C8: appending two codes to the concrete code-backed gift
bumps its pool and quantity by 2. -/
theorem add_codes_spec_witness :
    (add_codes ctxC6 "G1" ["B1", "B2"]).2 = .added 2 ∧
    lookupKey (add_codes ctxC6 "G1" ["B1", "B2"]).1.gifts "G1" =
      some ({ gC6 with codes := gC6.codes ++ ["B1", "B2"], quantity := gC6.quantity + (2 : Int) }) := by
  have h := (add_codes_spec ctxC6 "G1" ["B1", "B2"]).2.2 gC6 (by decide) (by decide)
  exact ⟨h.1, h.2.1⟩

end CheckinGift
